import Mathlib

/-
Verification of the nodriver Tab layer (src/nodriver/core/tab.py) against its
natural-language specification. The Python code is shallowly embedded: protocol
round trips become oracle functions (one result per attempt index), the asyncio
clock becomes a discrete counter in tenths of a second (sleep(0.5) advances the
counter by 5, sleep(0.1) by 1), Python None becomes an explicit constructor or
Option.none, and raised exceptions become explicit error constructors.
-/

namespace Nodriver

/-- Python strings are modelled as lists of characters so that strip/length
compute by kernel reduction. -/
abbrev PyStr := List Char

/-- Model of Python str.strip(): drop leading and trailing whitespace. -/
def pyStrip (s : PyStr) : PyStr :=
  ((s.dropWhile Char.isWhitespace).reverse.dropWhile Char.isWhitespace).reverse

/-- Model of an nodriver Element as far as the text-search pipeline inspects it:
its identity, node_type, node_value, the text_all aggregate used by best_match,
and the (possibly absent) parent element. -/
inductive PyElem where
  | mk (eid : Nat) (node_type : Nat) (node_value : PyStr) (text_all : PyStr)
       (parent : Option PyElem)

def PyElem.eid : PyElem → Nat
  | .mk i _ _ _ _ => i

def PyElem.node_type : PyElem → Nat
  | .mk _ t _ _ _ => t

def PyElem.node_value : PyElem → PyStr
  | .mk _ _ v _ _ => v

def PyElem.text_all : PyElem → PyStr
  | .mk _ _ _ s _ => s

def PyElem.parent : PyElem → Option PyElem
  | .mk _ _ _ _ p => p

/-- Model of a cdp.dom.Node / Element root argument as query_selector(_all)
inspect it: node_id, node_name, and the optional content_document of an
iframe. -/
inductive PyNodeLite where
  | mk (node_id : Nat) (node_name : String) (content_document : Option PyNodeLite)

def PyNodeLite.node_id : PyNodeLite → Nat
  | .mk i _ _ => i

def PyNodeLite.node_name : PyNodeLite → String
  | .mk _ n _ => n

def PyNodeLite.content_document : PyNodeLite → Option PyNodeLite
  | .mk _ _ d => d

/-- Outcome of one cdp.dom.query_selector(_all) protocol send. staleErr is a
ProtocolException whose message contains the words could not find node;
protoErr is any other ProtocolException. -/
inductive SendOutcome (α : Type) where
  | ok (v : α)
  | staleErr
  | protoErr (msg : String)

/-- Python-level result of Tab.query_selector_all with an explicit _node:
pyNone is a bare return (Python None), elems is a list of matched node ids,
diverge means the recursion consumed all available fuel without returning. -/
inductive QSAResult where
  | pyNone
  | elems (ids : List Nat)
  | diverge
deriving DecidableEq

/-- Python-level result of Tab.query_selector with an explicit _node: pyNone
is Python None (no match), elemId a found element, emptyList the literal
empty list returned on the guarded stale-retry path, raisedAttr an
uncaught AttributeError, diverge as above. -/
inductive QSResult where
  | pyNone
  | elemId (nid : Nat)
  | emptyList
  | raisedAttr
  | diverge
deriving DecidableEq

/-- Shallow embedding of Tab.query_selector_all (tab.py lines 479-544) on the
path where an explicit _node is supplied. The document used for the query is
the node itself, or its content_document when node_name is IFRAME; when that
content_document is absent, building the command raises AttributeError which
the source catches with a bare return (Python None). On a stale-node
ProtocolException the source checks getattr(_node, "__last", None) - the
unmangled attribute name, modelled by lastPlain - and otherwise performs
_node.update() and sets _node.__last = True, which inside class Tab is
name-mangled to the attribute _Tab__last, modelled by lastMangled, before
retrying. Any other ProtocolException is caught and swallowed (the inner
branch does not re-raise when _node is present), after which node_ids is
still the initial empty list and the source returns []. Successful replies
are filtered through the fetched document (util.filter_recurse), modelled by
the inDoc predicate; element materialization itself is not modelled. fuel
bounds the recursion depth so that non-termination is observable as
.diverge. -/
def qsaNode (send : Nat → SendOutcome (List Nat)) (inDoc : Nat → Bool)
    (node : PyNodeLite) (fuel : Nat) (lastPlain lastMangled : Bool)
    (attempt : Nat) : QSAResult :=
  match (if node.node_name = "IFRAME" then node.content_document else some node) with
  | none => .pyNone
  | some _doc =>
    match send attempt with
    | .ok ids => .elems (ids.filter inDoc)
    | .staleErr =>
      if lastPlain then .elems []
      else
        match fuel with
        | 0 => .diverge
        | fuel' + 1 => qsaNode send inDoc node fuel' lastPlain true (attempt + 1)
    | .protoErr _ => .elems []

/-- Shallow embedding of Tab.query_selector (tab.py lines 546-593) on the path
where an explicit _node is supplied. Unlike query_selector_all there is no
AttributeError handler, so an IFRAME node without content_document raises.
The protocol reply is a node id, with 0 standing for the falsy NodeId that
makes the source return None; the guarded stale-retry path returns the
literal []. The same "__last" versus mangled _Tab__last asymmetry applies. -/
def qsNode (send : Nat → SendOutcome Nat) (inDoc : Nat → Bool)
    (node : PyNodeLite) (fuel : Nat) (lastPlain lastMangled : Bool)
    (attempt : Nat) : QSResult :=
  match (if node.node_name = "IFRAME" then node.content_document else some node) with
  | none => .raisedAttr
  | some _doc =>
    match send attempt with
    | .ok nid =>
      if nid = 0 then .pyNone
      else if inDoc nid then .elemId nid else .pyNone
    | .staleErr =>
      if lastPlain then .emptyList
      else
        match fuel with
        | 0 => .diverge
        | fuel' + 1 => qsNode send inDoc node fuel' lastPlain true (attempt + 1)
    | .protoErr _ => .pyNone

/-- Model of cdp.target.TargetInfo as far as Tab.__eq__ inspects it; the cdp
TargetInfo is a dataclass, so Python equality is field equality. -/
structure TargetInfo where
  target_id : String
  url : String
deriving DecidableEq

/-- Model of a Tab: its target plus the websocket url standing in for the
underlying connection/transport identity, which __eq__ never consults. -/
structure TabM where
  target : TargetInfo
  websocket_url : String

/-- A value a Tab may be compared against: another Tab, or an arbitrary object
without a target attribute (accessing other.target raises AttributeError). -/
inductive PyValue where
  | tab (t : TabM)
  | nonTab (tag : String)

/-- Shallow embedding of Tab.__eq__ (tab.py lines 1973-1977): other.target ==
self.target, with AttributeError/TypeError caught and turned into False. -/
def tab_eq (self : TabM) (other : PyValue) : Bool :=
  match other with
  | .tab o => decide (o.target = self.target)
  | .nonTab _ => false

/-- Shallow embedding of the per-match body of the loop in
Tab.find_element_by_text (tab.py lines 716-737): a match whose node_type is 3
has its parent re-read (elem.update(), modelled by the upd oracle) when the
parent is absent, and then elem.parent or elem is appended; any other match
is appended unchanged. The substitution is unconditional - the source never
consults the return_enclosing_element parameter. -/
def processMatch (upd : PyElem → Option PyElem) (e : PyElem) : PyElem :=
  if e.node_type = 3 then
    match (match e.parent with
           | some p => some p
           | none => upd e) with
    | some p => p
    | none => e
  else e

/-- Model of Python min(items, key=f): iterate, keeping the current element
unless a strictly smaller key appears, so the first minimum wins ties. -/
def pyMin {α : Type} (f : α → Nat) (x : α) : List α → α
  | [] => x
  | y :: ys => pyMin f (if f y < f x then y else x) ys

/-- Key used by the best_match branch of Tab.find_element_by_text (line 765):
abs(len(text) - len(el.text_all)). -/
def bestDiff (text : PyStr) (el : PyElem) : Nat :=
  ((text.length : Int) - (el.text_all.length : Int)).natAbs

/-- Shallow embedding of Tab.find_element_by_text (tab.py lines 681-776). The
protocol search is abstracted into its outcome: matches is the list of
elements materialized from the main-document search results in result order,
and iframeParents the text-node parents appended by the iframe sweep (lines
741-758). The search text is stripped on entry (line 704). When best_match
is set the candidate minimizing abs(len(text) - len(el.text_all)) is chosen
with Python min semantics, otherwise the first candidate is returned. The
return_enclosing_element parameter is carried because the source signature
has it, but the source body never reads it. -/
def find_element_by_text (upd : PyElem → Option PyElem)
    (mainMatches iframeParents : List PyElem) (text : PyStr)
    (best_match return_enclosing_element : Bool) : Option PyElem :=
  match mainMatches.map (processMatch upd) ++ iframeParents with
  | [] => none
  | x :: xs =>
    if best_match then some (pyMin (bestDiff (pyStrip text)) x xs)
    else some x

/-- Shallow embedding of the retry loop of the selector branch of Tab.wait_for
(tab.py lines 1293-1301): re-query, raise asyncio.TimeoutError when the
elapsed time exceeds the timeout, otherwise sleep 0.5s and repeat. Time is
in tenths of a second; the error payload records the elapsed time observed
at the raise. -/
def waitForSelLoop (q : Nat → Option PyElem) (timeout attempt elapsed : Nat) :
    Except Nat PyElem :=
  match q attempt with
  | some e => .ok e
  | none =>
    if timeout < elapsed then .error elapsed
    else waitForSelLoop q timeout (attempt + 1) (elapsed + 5)
termination_by timeout + 5 - elapsed
decreasing_by omega

/-- Shallow embedding of Tab.wait_for (tab.py lines 1265-1311). Its first
positional parameter is the css selector and its second the search text; a
truthy selector drives query_selector polling (raising on deadline), an
empty selector with truthy text drives find_element_by_text polling, and
with both empty the function falls through returning None. The lookups are
abstracted as oracles keyed by the string actually passed and the attempt
index. -/
def wait_for (qsel qtext : String → Nat → Option PyElem)
    (selector text : String) (timeout : Nat) : Except Nat (Option PyElem) :=
  if selector = "" then
    if text = "" then .ok none
    else
      match qtext text 0 with
      | some e => .ok (some e)
      | none => (waitForSelLoop (qtext text) timeout 1 0).map some
  else
    match qsel selector 0 with
    | some e => .ok (some e)
    | none => (waitForSelLoop (qsel selector) timeout 1 0).map some

/-- Shallow embedding of Tab.__call__ (tab.py lines 1546-1561): it forwards
its (text, selector, timeout) arguments positionally to wait_for, whose
positional order is (selector, text, timeout). -/
def tabCall (qsel qtext : String → Nat → Option PyElem)
    (text selector : String) (timeout : Nat) : Except Nat (Option PyElem) :=
  wait_for qsel qtext text selector timeout

/-- Shallow embedding of the retry loop shared by Tab.select (tab.py lines
322-328) and Tab.find (lines 290-298): settle (await self, which may consume
up to the grace period, modelled by the settle oracle), re-query, return the
just-queried item when the deadline has passed (even when it is None - no
exception is raised), otherwise sleep 0.5s and repeat. -/
def selectLoop (q : Nat → Option PyElem) (settle : Nat → Nat)
    (timeout attempt elapsed : Nat) : Option PyElem :=
  match q attempt with
  | some e => some e
  | none =>
    if timeout < elapsed + settle attempt then none
    else selectLoop q settle timeout (attempt + 1) (elapsed + settle attempt + 5)
termination_by timeout + 5 - elapsed
decreasing_by omega

/-- Shallow embedding of Tab.select (tab.py lines 300-328): one immediate
query, then the retry loop; the selector string is stripped and baked into
the query oracle. -/
def select (q : Nat → Option PyElem) (settle : Nat → Nat) (timeout : Nat) :
    Option PyElem :=
  match q 0 with
  | some e => some e
  | none => selectLoop q settle timeout 1 0

/-- Shallow embedding of Tab.find (tab.py lines 243-298): identical loop shape
to Tab.select, with find_element_by_text as the underlying lookup, again
abstracted into the query oracle. -/
def find (q : Nat → Option PyElem) (settle : Nat → Nat) (timeout : Nat) :
    Option PyElem :=
  match q 0 with
  | some e => some e
  | none => selectLoop q settle timeout 1 0

/-- Shallow embedding of the retry loop of Tab.find_all (tab.py lines 351-357):
settle, re-query, return the just-queried items when the deadline has passed
(possibly the empty list, never an exception), otherwise sleep 0.5s and
repeat. -/
def find_allLoop (q : Nat → List PyElem) (settle : Nat → Nat)
    (timeout attempt elapsed : Nat) : List PyElem :=
  if timeout < elapsed + settle attempt then q attempt
  else if (q attempt).isEmpty then
    find_allLoop q settle timeout (attempt + 1) (elapsed + settle attempt + 5)
  else q attempt
termination_by timeout + 5 - elapsed
decreasing_by omega

/-- Shallow embedding of Tab.find_all (tab.py lines 330-357): one immediate
find_elements_by_text call, then the retry loop. -/
def find_all (q : Nat → List PyElem) (settle : Nat → Nat) (timeout : Nat) :
    List PyElem :=
  if (q 0).isEmpty then find_allLoop q settle timeout 1 0 else q 0

/-- Outcome of the cdp.dom.disable() cleanup send in the finally block of
Tab.xpath. -/
inductive DisableOutcome where
  | ok
  | protocolExc (msg : String)

/-- Shallow embedding of the inner polling loop of Tab.xpath (tab.py lines
437-441): re-run find_all(timeout=0), sleep 0.1s, break out with the current
items once the elapsed time exceeds the timeout. -/
def xpathLoop (findAllCall : Nat → List PyElem) (timeout attempt elapsed : Nat) :
    List PyElem :=
  if (findAllCall attempt).isEmpty then
    if timeout < elapsed + 1 then []
    else xpathLoop findAllCall timeout (attempt + 1) (elapsed + 1)
  else findAllCall attempt
termination_by timeout + 1 - elapsed
decreasing_by omega

/-- Shallow embedding of Tab.xpath (tab.py lines 403-449): dom.enable, one
find_all(timeout=0) pass, the polling loop when that pass is empty, and a
finally block whose dom.disable call catches ProtocolException (the source
comments that dom.disable sometimes raises that dom is not enabled) and
passes, so the collected items are returned either way. -/
def xpath (findAllCall : Nat → List PyElem) (timeout : Nat)
    (disable : DisableOutcome) : Except String (List PyElem) :=
  match disable with
  | .ok =>
    .ok (if (findAllCall 0).isEmpty then xpathLoop findAllCall timeout 1 0
         else findAllCall 0)
  | .protocolExc _ =>
    .ok (if (findAllCall 0).isEmpty then xpathLoop findAllCall timeout 1 0
         else findAllCall 0)

/-- Shallow embedding of the retry loop of Tab.select_all (tab.py lines
385-391): settle, re-query the root document only (the iframe matches are
not re-collected), return the just-queried items when the deadline has
passed, otherwise sleep 0.5s and repeat. -/
def selectAllLoop (q : Nat → List PyElem) (settle : Nat → Nat)
    (timeout attempt elapsed : Nat) : List PyElem :=
  if timeout < elapsed + settle attempt then q attempt
  else if (q attempt).isEmpty then
    selectAllLoop q settle timeout (attempt + 1) (elapsed + settle attempt + 5)
  else q attempt
termination_by timeout + 5 - elapsed
decreasing_by omega

/-- Shallow embedding of Tab.select_all (tab.py lines 359-391). When
include_frames is set the source first queries all iframe elements and
extends items with each iframe subtree result in document order, then
appends the root-level matches; the loop only runs when that combined list
is empty. Modelled from the spec: Element.query_selector_all
(core/element.py, not under src/) queries one iframe subtree with the same
selector and yields its match list; frameMatches is the list of those
per-iframe result lists in document order. -/
def select_all (include_frames : Bool) (frameMatches : List (List PyElem))
    (q : Nat → List PyElem) (settle : Nat → Nat) (timeout : Nat) :
    List PyElem :=
  if ((if include_frames then frameMatches.flatten else []) ++ q 0).isEmpty then
    selectAllLoop q settle timeout 1 0
  else (if include_frames then frameMatches.flatten else []) ++ q 0

/-- Lifecycle event kinds of the cdp.page domain as far as Tab.wait subscribes
to them; other covers every remaining event kind. -/
inductive PageEvent where
  | frameStoppedLoading
  | frameDetached
  | frameNavigated
  | lifecycleEvent
  | loadEventFired
  | other (n : Nat)
deriving DecidableEq

/-- Handler registration entry: the event kinds it is keyed under plus the
identity of the Python callback object (each Tab.wait call creates a fresh
lambda). -/
structure Subscription where
  kinds : List PageEvent
  hid : Nat
deriving DecidableEq

/-- Event list built by Tab.wait (tab.py lines 1229-1235). -/
def waitEvents : List PageEvent :=
  [.frameStoppedLoading, .frameDetached, .frameNavigated, .lifecycleEvent,
   .loadEventFired]

/-- Grace period actually used by Tab.wait (tab.py lines 1241-1242): `if not
t: t = 0.5`, so both an absent t and a zero t become half a second (5
tenths). -/
def graceOf : Option Nat → Nat
  | none => 5
  | some 0 => 5
  | some (k + 1) => k + 1

/-- Modelled from the spec: Connection.add_handler (core/connection.py, not
under src/) registers a persistent listener; handlers are invoked in
registration order, so registration appends the subscription. -/
def add_handler (subs : List Subscription) (s : Subscription) :
    List Subscription :=
  subs ++ [s]

/-- Modelled from the spec: Connection.remove_handler (core/connection.py, not
under src/) removes the given previously registered subscription - the first
matching entry, leaving the rest untouched. -/
def remove_handler : List Subscription → Subscription → List Subscription
  | [], _ => []
  | a :: as, s => if a = s then as else a :: remove_handler as s

/-- How the race inside Tab.wait ends: the one-shot lifecycle handler fires
first, the grace timer fires first, or the body raises. -/
inductive WaitOutcome where
  | eventFired
  | timerExpired
  | raisedDuringWait
deriving DecidableEq

/-- Shallow embedding of Tab.wait (tab.py lines 1222-1254): build the
subscription over waitEvents with a fresh handler, add_handler it, race the
event against asyncio.sleep of the grace period with FIRST_COMPLETED and
cancel the loser, and remove_handler in a finally block, so the removal
happens on the event path, on the timer path, and when the body raises.
Returns the handler list after the call together with the grace period
used. -/
def tabWait (subs : List Subscription) (hid : Nat) (t : Option Nat)
    (outcome : WaitOutcome) : List Subscription × Nat :=
  match outcome with
  | .eventFired =>
    (remove_handler (add_handler subs ⟨waitEvents, hid⟩) ⟨waitEvents, hid⟩,
     graceOf t)
  | .timerExpired =>
    (remove_handler (add_handler subs ⟨waitEvents, hid⟩) ⟨waitEvents, hid⟩,
     graceOf t)
  | .raisedDuringWait =>
    (remove_handler (add_handler subs ⟨waitEvents, hid⟩) ⟨waitEvents, hid⟩,
     graceOf t)

/-- Concrete element with a parent, used to evaluate the text-node
substitution at a specific input. -/
def sampleParent : PyElem := .mk 1 1 [] ['h', 'i'] none

/-- Concrete text node (node_type 3) whose parent is sampleParent. -/
def sampleTextNode : PyElem := .mk 2 3 ['h', 'i'] ['h', 'i'] (some sampleParent)

/-- Concrete candidate with total text length 3. -/
def bmShort : PyElem := .mk 1 1 [] (List.replicate 3 'a') none

/-- Concrete candidate with total text length 50. -/
def bmLong : PyElem := .mk 2 1 [] (List.replicate 50 'a') none

/-- Concrete candidate with total text length 6. -/
def bmClose : PyElem := .mk 3 1 [] (List.replicate 6 'a') none

/-- Concrete search string of length 5. -/
def bmText : PyStr := List.replicate 5 'b'

/-- Concrete element found inside an iframe subtree. -/
def elemA : PyElem := .mk 10 1 [] [] none

/-- Concrete element found at the root document level. -/
def elemB : PyElem := .mk 11 1 [] [] none

theorem selectLoop_never (q : Nat → Option PyElem) (settle : Nat → Nat)
    (timeout : Nat) (hq : ∀ k, q k = none) :
    ∀ (n attempt elapsed : Nat), timeout + 5 - elapsed ≤ n →
      selectLoop q settle timeout attempt elapsed = none := by
  intro n
  induction n with
  | zero =>
    intro attempt elapsed h
    unfold selectLoop
    rw [hq attempt]
    simp [show timeout < elapsed + settle attempt by omega]
  | succ n ih =>
    intro attempt elapsed h
    unfold selectLoop
    rw [hq attempt]
    by_cases hc : timeout < elapsed + settle attempt
    · simp [hc]
    · simp only [if_neg hc]
      exact ih (attempt + 1) (elapsed + settle attempt + 5) (by omega)

theorem waitForSelLoop_never (q : Nat → Option PyElem) (timeout : Nat)
    (hq : ∀ k, q k = none) :
    ∀ (n attempt elapsed : Nat), timeout + 5 - elapsed ≤ n →
      elapsed ≤ timeout + 5 →
      ∃ e, waitForSelLoop q timeout attempt elapsed = .error e ∧
        timeout < e ∧ e ≤ timeout + 5 := by
  intro n
  induction n with
  | zero =>
    intro attempt elapsed h hle
    refine ⟨elapsed, ?_, by omega, hle⟩
    unfold waitForSelLoop
    rw [hq attempt]
    simp [show timeout < elapsed by omega]
  | succ n ih =>
    intro attempt elapsed h hle
    by_cases hc : timeout < elapsed
    · refine ⟨elapsed, ?_, hc, hle⟩
      unfold waitForSelLoop
      rw [hq attempt]
      simp [hc]
    · obtain ⟨e, he, h1, h2⟩ :=
        ih (attempt + 1) (elapsed + 5) (by omega) (by omega)
      refine ⟨e, ?_, h1, h2⟩
      unfold waitForSelLoop
      rw [hq attempt]
      simp [hc, he]

theorem find_allLoop_never (q : Nat → List PyElem) (settle : Nat → Nat)
    (timeout : Nat) (hq : ∀ k, q k = []) :
    ∀ (n attempt elapsed : Nat), timeout + 5 - elapsed ≤ n →
      find_allLoop q settle timeout attempt elapsed = [] := by
  intro n
  induction n with
  | zero =>
    intro attempt elapsed h
    unfold find_allLoop
    simp [hq, show timeout < elapsed + settle attempt by omega]
  | succ n ih =>
    intro attempt elapsed h
    unfold find_allLoop
    by_cases hc : timeout < elapsed + settle attempt
    · simp [hc, hq]
    · simp only [if_neg hc, hq, List.isEmpty_nil, if_pos]
      exact ih (attempt + 1) (elapsed + settle attempt + 5) (by omega)

theorem find_all_never (q : Nat → List PyElem) (settle : Nat → Nat)
    (timeout : Nat) (hq : ∀ k, q k = []) :
    find_all q settle timeout = [] := by
  unfold find_all
  simp only [hq, List.isEmpty_nil, if_pos]
  exact find_allLoop_never q settle timeout hq (timeout + 5) 1 0 (by omega)

theorem xpathLoop_never (fa : Nat → List PyElem) (timeout : Nat)
    (hfa : ∀ k, fa k = []) :
    ∀ (n attempt elapsed : Nat), timeout + 1 - elapsed ≤ n →
      xpathLoop fa timeout attempt elapsed = [] := by
  intro n
  induction n with
  | zero =>
    intro attempt elapsed h
    unfold xpathLoop
    simp [hfa, show timeout < elapsed + 1 by omega]
  | succ n ih =>
    intro attempt elapsed h
    unfold xpathLoop
    by_cases hc : timeout < elapsed + 1
    · simp [hc, hfa]
    · simp only [hfa, List.isEmpty_nil, if_pos, if_neg hc]
      exact ih (attempt + 1) (elapsed + 1) (by omega)

theorem pyMin_mem_le {α : Type} (f : α → Nat) :
    ∀ (xs : List α) (x : α),
      pyMin f x xs ∈ x :: xs ∧ ∀ y ∈ x :: xs, f (pyMin f x xs) ≤ f y := by
  intro xs
  induction xs with
  | nil =>
    intro x
    refine ⟨by simp [pyMin], ?_⟩
    intro y hy
    simp only [List.mem_singleton] at hy
    subst hy
    simp [pyMin]
  | cons a as ih =>
    intro x
    obtain ⟨hmem, hle⟩ := ih (if f a < f x then a else x)
    have hstep : pyMin f x (a :: as) = pyMin f (if f a < f x then a else x) as := rfl
    constructor
    · rw [hstep]
      rcases List.mem_cons.mp hmem with h | h
      · rw [h]
        by_cases hc : f a < f x <;> simp [hc]
      · simp [List.mem_cons, h]
    · intro y hy
      rw [hstep]
      have hsx : f (pyMin f (if f a < f x then a else x) as) ≤
          f (if f a < f x then a else x) :=
        hle _ (List.mem_cons_self _ _)
      have hxx : f (if f a < f x then a else x) ≤ f x := by
        by_cases hc : f a < f x <;> simp [hc] <;> omega
      have hxa : f (if f a < f x then a else x) ≤ f a := by
        by_cases hc : f a < f x <;> simp [hc] <;> omega
      rcases List.mem_cons.mp hy with h | h
      · subst h; omega
      rcases List.mem_cons.mp h with h2 | h2
      · subst h2; omega
      · exact hle y (List.mem_cons_of_mem _ h2)

theorem remove_add (subs : List Subscription) (s : Subscription)
    (h : s ∉ subs) : remove_handler (add_handler subs s) s = subs := by
  induction subs with
  | nil => simp [add_handler, remove_handler]
  | cons a as ih =>
    simp only [List.mem_cons, not_or] at h
    have hne : a ≠ s := fun hc => h.1 hc.symm
    simp only [add_handler, List.cons_append, remove_handler, if_neg hne]
    have := ih h.2
    simp only [add_handler] at this
    exact congrArg (fun l => a :: l) this

/-- C1: the claim is false on the code. With a protocol oracle that fails with
a stale-node ProtocolException on every attempt, Tab.query_selector_all and
Tab.query_selector with a supplied root node never perform just one recovery
and never return an empty result: for every recursion depth the call
recurses past it (Python raises RecursionError eventually), because the
guard reads getattr(_node, "__last", None) while the retry sets the
name-mangled attribute _Tab__last, so the guard never fires. -/
theorem c1_stale_retry_diverges :
    ∀ (fuel attempt : Nat) (lastMangled : Bool) (inDoc : Nat → Bool)
      (inDocS : Nat → Bool),
      qsaNode (fun _ => .staleErr) inDoc (.mk 7 "DIV" none) fuel false
        lastMangled attempt = .diverge ∧
      qsNode (fun _ => .staleErr) inDocS (.mk 7 "DIV" none) fuel false
        lastMangled attempt = .diverge := by
  intro fuel
  induction fuel with
  | zero => intro attempt b inDoc inDocS; exact ⟨rfl, rfl⟩
  | succ n ih =>
    intro attempt b inDoc inDocS
    exact ⟨(ih (attempt + 1) true inDoc inDocS).1,
           (ih (attempt + 1) true inDoc inDocS).2⟩

/-- C2: the claim is false on the code. At the failing input - a single text
search match that is a text node (node_type 3) with an existing parent, with
return_enclosing_element passed as False - find_element_by_text still
returns the parent element, not the raw text node: the source accepts the
parameter but its body never reads it. -/
theorem c2_flag_ignored_parent_still_returned :
    find_element_by_text (fun _ => none) [sampleTextNode] [] ['h', 'i']
      false false = some sampleParent ∧
    sampleParent ≠ sampleTextNode :=
  ⟨rfl, fun h => absurd (congrArg PyElem.eid h) (by decide)⟩

/-- C3: for a never-matching lookup, wait_for raises a timeout error whose
observed elapsed time lies in the interval (timeout, timeout + 5] tenths of
a second - after approximately the timeout, neither immediately nor
indefinitely - while select and find with the same never-matching lookup
return None at their deadline without raising. -/
theorem c3_wait_for_raises_lookups_return_none
    (qs : Nat → Option PyElem) (qtext : String → Nat → Option PyElem)
    (settle : Nat → Nat) (s : String) (timeout : Nat)
    (hs : s ≠ "") (hq : ∀ k, qs k = none) :
    (∃ e, wait_for (fun _ => qs) qtext s "" timeout = .error e ∧
      timeout < e ∧ e ≤ timeout + 5) ∧
    select qs settle timeout = none ∧
    find qs settle timeout = none := by
  refine ⟨?_, ?_, ?_⟩
  · obtain ⟨e, he, h1, h2⟩ :=
      waitForSelLoop_never qs timeout hq (timeout + 5) 1 0 (by omega) (by omega)
    refine ⟨e, ?_, h1, h2⟩
    unfold wait_for
    rw [if_neg hs]
    simp only []
    rw [hq 0]
    simp [he, Except.map]
  · unfold select
    rw [hq 0]
    exact selectLoop_never qs settle timeout hq (timeout + 5) 1 0 (by omega)
  · unfold find
    rw [hq 0]
    exact selectLoop_never qs settle timeout hq (timeout + 5) 1 0 (by omega)

/-- C3 witness: at the concrete never-matching selector and timeout 10 tenths,
wait_for errors with elapsed time in (10, 15] and select/find return
None. -/
theorem c3_witness :
    (∃ e, wait_for (fun _ _ => none) (fun _ _ => none) "#never-appears" "" 10
        = .error e ∧ 10 < e ∧ e ≤ 15) ∧
    select (fun _ => none) (fun _ => 0) 10 = none ∧
    find (fun _ => none) (fun _ => 0) 10 = none :=
  c3_wait_for_raises_lookups_return_none (fun _ => none) (fun _ _ => none)
    (fun _ => 0) "#never-appears" 10 (by decide) (fun _ => rfl)

/-- C4: when best_match is requested and the candidate list is non-empty,
find_element_by_text returns a candidate whose absolute difference between
its total text length and the stripped search-string length is minimal over
all candidates. -/
theorem c4_best_match_minimal (upd : PyElem → Option PyElem)
    (mainMatches iframeParents : List PyElem) (text : PyStr) (r : Bool)
    (h : mainMatches.map (processMatch upd) ++ iframeParents ≠ []) :
    ∃ m, find_element_by_text upd mainMatches iframeParents text true r
        = some m ∧
      m ∈ mainMatches.map (processMatch upd) ++ iframeParents ∧
      ∀ y ∈ mainMatches.map (processMatch upd) ++ iframeParents,
        bestDiff (pyStrip text) m ≤ bestDiff (pyStrip text) y := by
  cases hcase : mainMatches.map (processMatch upd) ++ iframeParents with
  | nil => exact absurd hcase h
  | cons x xs =>
    refine ⟨pyMin (bestDiff (pyStrip text)) x xs, ?_, ?_, ?_⟩
    · unfold find_element_by_text
      rw [hcase]
      simp
    · exact (pyMin_mem_le (bestDiff (pyStrip text)) xs x).1
    · intro y hy
      exact (pyMin_mem_le (bestDiff (pyStrip text)) xs x).2 y hy

/-- C4 witness: with candidate text lengths [3, 50, 6] and a search string of
length 5, the selected candidate is minimal in length difference, and it is
precisely the length-6 candidate. -/
theorem c4_witness :
    (∃ m, find_element_by_text (fun _ => none) [bmShort, bmLong, bmClose] []
        bmText true true = some m ∧
      m ∈ [bmShort, bmLong, bmClose].map (processMatch (fun _ => none)) ++ [] ∧
      ∀ y ∈ [bmShort, bmLong, bmClose].map (processMatch (fun _ => none)) ++ [],
        bestDiff (pyStrip bmText) m ≤ bestDiff (pyStrip bmText) y) ∧
    find_element_by_text (fun _ => none) [bmShort, bmLong, bmClose] []
      bmText true true = some bmClose :=
  ⟨c4_best_match_minimal (fun _ => none) [bmShort, bmLong, bmClose] []
      bmText true (by simp [processMatch, bmShort]), rfl⟩

/-- C5: with include_frames set and at least one iframe match and at least one
root-level match, select_all returns the concatenation of the per-iframe
matches (in document order) with the root-level matches, so every match
found inside an iframe subtree occupies an index before every root-level
match. -/
theorem c5_iframe_matches_precede_root (frameMatches : List (List PyElem))
    (q : Nat → List PyElem) (settle : Nat → Nat) (timeout : Nat)
    (hf : frameMatches.flatten ≠ []) (hr : q 0 ≠ []) :
    select_all true frameMatches q settle timeout
      = frameMatches.flatten ++ q 0 ∧
    (∀ i, i < frameMatches.flatten.length →
      (select_all true frameMatches q settle timeout)[i]?
        = frameMatches.flatten[i]?) ∧
    (∀ j, (select_all true frameMatches q settle timeout)[frameMatches.flatten.length + j]?
        = (q 0)[j]?) := by
  have hne : ((frameMatches.flatten) ++ q 0).isEmpty = false := by
    rcases frameMatches.flatten with _ | _ <;> simp_all
  have hmain : select_all true frameMatches q settle timeout
      = frameMatches.flatten ++ q 0 := by
    unfold select_all
    simp [hne]
  refine ⟨hmain, ?_, ?_⟩
  · intro i hi
    rw [hmain, List.getElem?_append, if_pos hi]
  · intro j
    rw [hmain, List.getElem?_append, if_neg (by omega)]
    congr 1
    omega

/-- C5 witness: one iframe containing one match and one root-level match; the
iframe match comes first. -/
theorem c5_witness :
    select_all true [[elemA]] (fun _ => [elemB]) (fun _ => 0) 10
      = [[elemA]].flatten ++ (fun _ : Nat => [elemB]) 0 ∧
    (∀ i, i < ([[elemA]] : List (List PyElem)).flatten.length →
      (select_all true [[elemA]] (fun _ => [elemB]) (fun _ => 0) 10)[i]?
        = ([[elemA]] : List (List PyElem)).flatten[i]?) ∧
    (∀ j, (select_all true [[elemA]] (fun _ => [elemB]) (fun _ => 0) 10)[([[elemA]] : List (List PyElem)).flatten.length + j]?
        = ((fun _ : Nat => [elemB]) 0)[j]?) :=
  c5_iframe_matches_precede_root [[elemA]] (fun _ => [elemB]) (fun _ => 0) 10
    (by simp) (by simp)

/-- C6: Tab.wait registers a one-shot handler for exactly the lifecycle event
kinds FrameStoppedLoading, FrameDetached, FrameNavigated, LifecycleEvent and
LoadEventFired, races it against a grace timer whose default is half a
second (5 tenths), and on every outcome - event first, timer first, or the
body raising - removes the registered handler, leaving the handler list
exactly as it was before the call. -/
theorem c6_wait_restores_handlers (subs : List Subscription) (hid : Nat)
    (t : Option Nat) (outcome : WaitOutcome)
    (hfresh : Subscription.mk waitEvents hid ∉ subs) :
    (tabWait subs hid t outcome).1 = subs ∧
    waitEvents = [PageEvent.frameStoppedLoading, PageEvent.frameDetached,
      PageEvent.frameNavigated, PageEvent.lifecycleEvent,
      PageEvent.loadEventFired] ∧
    graceOf none = 5 ∧ graceOf (some 0) = 5 := by
  refine ⟨?_, rfl, rfl, rfl⟩
  cases outcome <;>
    simpa [tabWait] using remove_add subs ⟨waitEvents, hid⟩ hfresh

/-- C6 witness: starting from an empty handler list, a wait whose body raises
still leaves the handler list empty, and the defaults are as claimed. -/
theorem c6_witness :
    (tabWait [] 0 none .raisedDuringWait).1 = [] ∧
    waitEvents = [PageEvent.frameStoppedLoading, PageEvent.frameDetached,
      PageEvent.frameNavigated, PageEvent.lifecycleEvent,
      PageEvent.loadEventFired] ∧
    graceOf none = 5 ∧ graceOf (some 0) = 5 :=
  c6_wait_restores_handlers [] 0 none .raisedDuringWait (by simp)

/-- C7: when every underlying text-search pass of find_all(timeout=0) finds
nothing, Tab.xpath returns ok with the empty list - no timeout error and no
exception - and this holds whether the trailing dom.disable cleanup
succeeds or raises a ProtocolException, which is caught and not
propagated. -/
theorem c7_xpath_returns_empty_never_raises (qs : Nat → Nat → List PyElem)
    (settle : Nat → Nat) (timeout : Nat) (disable : DisableOutcome)
    (hq : ∀ i k, qs i k = []) :
    xpath (fun i => find_all (qs i) settle 0) timeout disable = .ok [] := by
  have hfa : ∀ i, find_all (qs i) settle 0 = [] :=
    fun i => find_all_never (qs i) settle 0 (hq i)
  have hloop : xpathLoop (fun i => find_all (qs i) settle 0) timeout 1 0 = [] :=
    xpathLoop_never _ timeout hfa (timeout + 1) 1 0 (by omega)
  have hloop2 : xpathLoop (fun _ : Nat => ([] : List PyElem)) timeout 1 0 = [] :=
    xpathLoop_never (fun _ => []) timeout (fun _ => rfl) (timeout + 1) 1 0
      (by omega)
  cases disable <;> simp [xpath, hfa, hloop, hloop2]

/-- C7 witness: with no matches ever and a dom.disable cleanup that raises a
ProtocolException complaining that the dom agent is not enabled, xpath still
returns ok with the empty list. -/
theorem c7_witness :
    xpath (fun i => find_all ((fun _ _ => []) i) (fun _ => 0) 0) 25
      (.protocolExc "DOM agent was not enabled") = .ok [] :=
  c7_xpath_returns_empty_never_raises (fun _ _ => []) (fun _ => 0) 25
    (.protocolExc "DOM agent was not enabled") (fun _ _ => rfl)

/-- C8: Tab equality holds exactly when the targets are equal, it is
independent of the underlying connection (websocket) identity, and comparing
against a value without a target attribute yields False rather than
raising. -/
theorem c8_eq_iff_target_eq :
    (∀ a b : TabM, tab_eq a (.tab b) = true ↔ b.target = a.target) ∧
    (∀ (tga tgb : TargetInfo) (wa wb wc wd : String),
      tab_eq ⟨tga, wa⟩ (.tab ⟨tgb, wb⟩) = tab_eq ⟨tga, wc⟩ (.tab ⟨tgb, wd⟩)) ∧
    (∀ (a : TabM) (s : String), tab_eq a (.nonTab s) = false) := by
  refine ⟨?_, ?_, ?_⟩
  · intro a b
    simp [tab_eq]
  · intro tga tgb wa wb wc wd
    rfl
  · intro a s
    rfl

/-- C9: query_selector_all with a root node whose node_name is IFRAME but
whose content_document is absent returns Python None via the caught
AttributeError - a value distinct from the empty list and not an
exception. -/
theorem c9_iframe_no_content_document_returns_pynone :
    ∀ (send : Nat → SendOutcome (List Nat)) (inDoc : Nat → Bool)
      (nid fuel attempt : Nat) (lastPlain lastMangled : Bool),
      qsaNode send inDoc (.mk nid "IFRAME" none) fuel lastPlain lastMangled
        attempt = .pyNone ∧
      QSAResult.pyNone ≠ QSAResult.elems [] := by
  intro send inDoc nid fuel attempt p m
  cases fuel <;> exact ⟨rfl, by decide⟩

/-- C10: Tab.__call__ forwards its (text, selector, timeout) arguments
positionally to wait_for, whose first parameter is the css selector: the
callers text argument drives the selector lookup and the callers selector
argument drives the text lookup. -/
theorem c10_call_forwards_swapped (qsel qtext : String → Nat → Option PyElem)
    (t s : String) (timeout : Nat) (e : PyElem) :
    tabCall qsel qtext t s timeout = wait_for qsel qtext t s timeout ∧
    (t ≠ "" → qsel t 0 = some e →
      tabCall qsel qtext t s timeout = .ok (some e)) ∧
    (t = "" → s ≠ "" → qtext s 0 = some e →
      tabCall qsel qtext t s timeout = .ok (some e)) := by
  refine ⟨rfl, ?_, ?_⟩
  · intro ht hq
    unfold tabCall wait_for
    rw [if_neg ht, hq]
  · intro ht hs hq
    unfold tabCall wait_for
    rw [if_pos ht, if_neg hs, hq]

/-- C10 witness: calling the tab with text ".button" and empty selector makes
the selector-lookup oracle fire on ".button". -/
theorem c10_witness :
    tabCall (fun _ _ => some elemA) (fun _ _ => none) ".button" "" 10
      = .ok (some elemA) :=
  (c10_call_forwards_swapped (fun _ _ => some elemA) (fun _ _ => none)
    ".button" "" 10 elemA).2.1 (by decide) rfl

end Nodriver
